import Mathlib

/-!
Verification of the offline queue and synchronization subsystem of the
Kosuge Villager Point Card PWA (`app.js`, `sw.js`).

The JavaScript is shallowly embedded as pure Lean functions. Each stateful
operation is modelled by explicit state passing; the environment (remote
endpoint behaviour, IndexedDB fault injection) is an explicit argument, so
every run of `syncData` or of the scan-input keypress handler is a function
of its inputs.
-/

namespace PointCard

/-- The set of characters removed by JavaScript `String.prototype.trim`
(WhiteSpace and LineTerminator code points). -/
def isJsWhitespace (c : Char) : Bool :=
  let n := c.toNat
  n = 0x20 || n = 0x09 || n = 0x0A || n = 0x0D || n = 0x0B || n = 0x0C ||
  n = 0xA0 || n = 0xFEFF || (0x2000 ≤ n && n ≤ 0x200A) ||
  n = 0x1680 || n = 0x2028 || n = 0x2029 || n = 0x202F || n = 0x205F || n = 0x3000

/-- JavaScript `s.trim()`: strip leading and trailing whitespace. -/
def jsTrim (s : String) : String :=
  String.mk (((s.data.dropWhile isJsWhitespace).reverse.dropWhile isJsWhitespace).reverse)

/-- ASCII decimal digit, as matched by `\d` in a JavaScript regex
without the `u` flag. -/
def isAsciiDigit (c : Char) : Bool :=
  '0' ≤ c && c ≤ '9'

/-- The validation test of the keypress handler (app.js line 144):
`memberId.length === 14 && /^\d+$/.test(memberId)`.
A 14-character all-digit string is nonempty, so the `+` requirement of the
regex is subsumed by the length check. -/
def isValidMemberId (s : String) : Bool :=
  s.length == 14 && s.data.all isAsciiDigit

/-- JavaScript `x || dflt` on an optional string: `none` (absent / undefined)
and the empty string are falsy. -/
def jsOrStr (x : Option String) (dflt : String) : String :=
  match x with
  | none => dflt
  | some s => if s = "" then dflt else s

/-- The `settings` global (app.js line 30): `appsScriptUrl`, `storeId`,
`pointValue`, each possibly absent before the settings form is saved. -/
structure Settings where
  appsScriptUrl : Option String
  storeId : Option String
  pointValue : Option Int
  deriving Repr, DecidableEq

/-- Truthiness of an optional string, as JavaScript `!x` sees it. -/
def truthyStr (x : Option String) : Bool :=
  match x with
  | none => false
  | some s => s ≠ ""

/-- Truthiness of an optional number (`0` and absent are falsy; the code
never stores `NaN` because `saveSettings` rejects it). -/
def truthyInt (x : Option Int) : Bool :=
  match x with
  | none => false
  | some n => n ≠ 0

/-- The configuration guard of the keypress handler (app.js line 137):
`!settings.appsScriptUrl || !settings.storeId || !settings.pointValue`,
negated. -/
def configOk (s : Settings) : Bool :=
  truthyStr s.appsScriptUrl && truthyStr s.storeId && truthyInt s.pointValue

/-- One queue record as built by `addEntry` (app.js line 63):
`{ memberId, timestamp: new Date().toISOString(), deviceId }`.
The IndexedDB auto-increment key is represented by list position. -/
structure Entry where
  memberId : String
  timestamp : String
  deviceId : String
  deriving Repr, DecidableEq

/-- Outcome of one Enter-terminated scan as handled by the `scanInput`
keypress listener (app.js lines 130-158). `storageFault` is the rejection
of the `addEntry` promise propagating out of the async handler. -/
inductive ScanOutcome where
  | configurationMissing
  | invalidMemberId (memberId : String)
  | storageFault
  | accepted (memberId : String)
  deriving Repr, DecidableEq

/-- The body of the `scanInput` keypress handler for an Enter key
(app.js lines 130-158), with `addEntry` inlined (lines 59-69).
`appendFails` injects an IndexedDB write failure: a failed `store.add`
rejects and aborts its transaction, leaving the store unchanged.
Returns the scan outcome and the queue contents afterwards. -/
def submitScan (settings : Settings) (deviceId : String) (timestamp : String)
    (appendFails : Bool) (rawInput : String) (queue : List Entry) :
    ScanOutcome × List Entry :=
  let memberId := jsTrim rawInput
  if !configOk settings then
    (.configurationMissing, queue)
  else if isValidMemberId memberId then
    if appendFails then
      (.storageFault, queue)
    else
      (.accepted memberId, queue ++ [⟨memberId, timestamp, deviceId⟩])
  else
    (.invalidMemberId memberId, queue)

/-- The JSON payload of the primary batch submission (app.js lines 196-201):
`{ storeId, pointValue, data: entries.map(e => (memberId, timestamp)), deviceId }`.
`syncData` reads `settings` without a configuration guard, so the first two
fields may be absent. -/
structure Payload where
  storeId : Option String
  pointValue : Option Int
  data : List (String × String)
  deviceId : String
  deriving Repr, DecidableEq

/-- A network request issued by `syncData`: either the primary batch POST or
the secondary `updateLastSyncTime` POST (app.js lines 223-232), both to
`settings.appsScriptUrl`. -/
inductive Request where
  | batch (payload : Payload)
  | updateLastSyncTime (deviceId : String)
  deriving Repr, DecidableEq

/-- Behaviour of the remote endpoint on the primary fetch:
`networkError` — `fetch` itself rejects (network unreachable, timeout);
`badBody` — a response arrives but `response.json()` rejects (unparseable
body); the code awaits `json()` before looking at `response.ok`, so the
`ok` flag is carried but never reaches the success test;
`response` — a parsed body with `response.ok`, its `status` field and its
`message` field (either possibly absent). -/
inductive FetchResult where
  | networkError (detail : String)
  | badBody (ok : Bool) (detail : String)
  | response (ok : Bool) (status : Option Int) (message : Option String)
  deriving Repr, DecidableEq

/-- The success test of app.js line 213:
`response.ok && result.status === 200`. -/
def FetchResult.isAppSuccess : FetchResult → Bool
  | .response ok status _ => ok && status == some 200
  | _ => false

/-- Outcome of one `syncData` run, keyed to the branch of the code that
produced it (app.js lines 182-250): `nothingToSync` for the empty-queue
early return, `success` for the 同期成功 branch, `remoteRejected` for the
同期失敗 else-branch, `syncError` for the catch branch (同期エラー). -/
inductive SyncOutcome where
  | nothingToSync
  | success (message : Option String)
  | remoteRejected (message : String)
  | syncError (detail : String)
  deriving Repr, DecidableEq

/-- The device-local persistent state `syncData` touches: the IndexedDB
queue and the `lastSyncTime` localStorage entry (milliseconds since
epoch). -/
structure SyncState where
  queue : List Entry
  lastSyncTime : Option Nat
  deriving Repr, DecidableEq

/-- Environment of one `syncData` run: what the remote returns on the
primary fetch, whether `clearEntries` faults (`some detail` — a failed
`store.clear` rejects and aborts its transaction, leaving the store
unchanged), and whether the secondary fire-and-forget fetch rejects. -/
structure SyncEnv where
  fetchResult : FetchResult
  clearFail : Option String
  secondFetchFails : Bool
  deriving Repr, DecidableEq

/-- Everything observable about one `syncData` run: the outcome, the
persistent state afterwards, the network requests issued in order, and the
console error/warn log. -/
structure SyncResult where
  outcome : SyncOutcome
  state : SyncState
  requests : List Request
  logs : List String
  deriving Repr, DecidableEq

/-- `syncData` (app.js lines 182-250), with `getAllEntries` and
`clearEntries` inlined (lines 71-91). `now` is `new Date().getTime()` at
line 216. The UI-only effects (status text, button disabling, focus) are
outside the model. -/
def syncData (settings : Settings) (deviceId : String) (now : Nat)
    (env : SyncEnv) (st : SyncState) : SyncResult :=
  if st.queue.length == 0 then
    { outcome := .nothingToSync, state := st, requests := [], logs := [] }
  else
    let payload : Payload :=
      { storeId := settings.storeId
        pointValue := settings.pointValue
        data := st.queue.map (fun e => (e.memberId, e.timestamp))
        deviceId := deviceId }
    match env.fetchResult with
    | .networkError detail =>
        { outcome := .syncError detail, state := st
          requests := [.batch payload], logs := ["Sync error: " ++ detail] }
    | .badBody _ detail =>
        { outcome := .syncError detail, state := st
          requests := [.batch payload], logs := ["Sync error: " ++ detail] }
    | .response ok status message =>
        if ok && status == some 200 then
          match env.clearFail with
          | some detail =>
              { outcome := .syncError detail, state := st
                requests := [.batch payload], logs := ["Sync error: " ++ detail] }
          | none =>
              { outcome := .success message
                state := { queue := [], lastSyncTime := some now }
                requests := [.batch payload, .updateLastSyncTime deviceId]
                logs :=
                  if env.secondFetchFails then
                    ["Failed to update last sync time on Apps Script"]
                  else
                    [] }
        else
          { outcome := .remoteRejected (jsOrStr message "不明なエラー"), state := st
            requests := [.batch payload], logs := [] }

/-- App startup lines 31-34:
`deviceId = localStorage.getItem(DEVICE_ID_KEY) || crypto.randomUUID()`
followed by `localStorage.setItem(DEVICE_ID_KEY, deviceId)`.
`stored` is the persisted `deviceId` key (`none` when absent), `freshUUID`
the value `crypto.randomUUID()` would produce on this call. Returns the
identifier in use and the persisted key afterwards. -/
def getOrCreate (stored : Option String) (freshUUID : String) :
    String × Option String :=
  let d := jsOrStr stored freshUUID
  (d, some d)

/-- `resetDevice` after the user confirms (app.js lines 253-257): clears
localStorage, deletes the IndexedDB database, and assigns
`deviceId = crypto.randomUUID()`. Modelled from the spec: the source file
is cut off right after that assignment, so the persistence of the new
identifier is taken from spec §4.2, whose `reset()` "discards the persisted
identifier and generates + persists a new one". Returns the new identifier,
the persisted `deviceId` key, and the queue afterwards. -/
def resetDevice (freshUUID : String) : String × Option String × List Entry :=
  (freshUUID, some freshUUID, [])

/-- `caches.match` over the named cache, modelled as first match in an
association list from request URL to response. -/
def cachesMatch (cache : List (String × String)) (req : String) :
    Option String :=
  (cache.find? (fun p => p.1 == req)).map (fun p => p.2)

/-- The service-worker fetch listener (sw.js lines 31-43): respond with the
cached copy when present, otherwise `fetch(event.request)` from the
network (`network` gives the network's answer, `none` for failure).
Returns the response served and the cache contents afterwards. -/
def handleFetch (cache : List (String × String))
    (network : String → Option String) (req : String) :
    Option String × List (String × String) :=
  match cachesMatch cache req with
  | some resp => (some resp, cache)
  | none => (network req, cache)

/-! ## Claim theorems -/

/-- C3: with the remote-endpoint configuration present, a scan is accepted
iff the trimmed input is exactly 14 ASCII digits; on acceptance the queue
grows by exactly the one record whose memberId is the trimmed input, and on
rejection the queue is unchanged. -/
theorem submitScan_accepts_iff_valid14
    (settings : Settings) (dev ts raw : String) (queue : List Entry)
    (hconf : configOk settings = true) :
    ((submitScan settings dev ts false raw queue).1 =
        ScanOutcome.accepted (jsTrim raw) ↔ isValidMemberId (jsTrim raw) = true) ∧
    (isValidMemberId (jsTrim raw) = true →
      (submitScan settings dev ts false raw queue).2 =
        queue ++ [⟨jsTrim raw, ts, dev⟩] ∧
      (submitScan settings dev ts false raw queue).2.length = queue.length + 1) ∧
    (isValidMemberId (jsTrim raw) = false →
      (submitScan settings dev ts false raw queue).1 =
        ScanOutcome.invalidMemberId (jsTrim raw) ∧
      (submitScan settings dev ts false raw queue).2 = queue) := by
  unfold submitScan
  by_cases h : isValidMemberId (jsTrim raw) = true <;>
    simp_all

/-- C3 witness: the 14-digit scan "12345678901234" is accepted and appended;
"1234567890123x" is rejected and the queue is unchanged. -/
theorem submitScan_accepts_iff_valid14_witness :
    (submitScan ⟨some "https://s/exec", some "store1", some 5⟩ "dev" "t0"
        false "12345678901234" []).1 = ScanOutcome.accepted "12345678901234" ∧
    (submitScan ⟨some "https://s/exec", some "store1", some 5⟩ "dev" "t0"
        false "12345678901234" []).2 = [⟨"12345678901234", "t0", "dev"⟩] ∧
    (submitScan ⟨some "https://s/exec", some "store1", some 5⟩ "dev" "t0"
        false "1234567890123x" []).2 = [] := by
  refine ⟨?_, ?_, ?_⟩
  · exact ((submitScan_accepts_iff_valid14 ⟨some "https://s/exec", some "store1",
      some 5⟩ "dev" "t0" "12345678901234" [] (by decide)).1).mpr (by decide)
  · exact ((submitScan_accepts_iff_valid14 ⟨some "https://s/exec", some "store1",
      some 5⟩ "dev" "t0" "12345678901234" [] (by decide)).2.1 (by decide)).1
  · exact ((submitScan_accepts_iff_valid14 ⟨some "https://s/exec", some "store1",
      some 5⟩ "dev" "t0" "1234567890123x" [] (by decide)).2.2 (by decide)).2

/-- C5: with configuration present and a valid trimmed input, an injected
append failure makes the handler end in `storageFault` with the queue
unchanged (the scan is not silently recorded as accepted), and any run
ending in `accepted` is one where the append succeeded and the record is
durably in the queue. -/
theorem submitScan_storage_fault
    (settings : Settings) (dev ts raw : String) (queue : List Entry)
    (hconf : configOk settings = true)
    (hvalid : isValidMemberId (jsTrim raw) = true) :
    submitScan settings dev ts true raw queue = (ScanOutcome.storageFault, queue) ∧
    ∀ af : Bool,
      (submitScan settings dev ts af raw queue).1 =
        ScanOutcome.accepted (jsTrim raw) →
      af = false ∧
      (submitScan settings dev ts af raw queue).2 =
        queue ++ [⟨jsTrim raw, ts, dev⟩] := by
  unfold submitScan
  refine ⟨by simp [hconf, hvalid], ?_⟩
  intro af
  cases af <;> simp [hconf, hvalid]

/-- C5 witness: at a concrete valid scan, the faulting run yields
`storageFault` and leaves the queue empty. -/
theorem submitScan_storage_fault_witness :
    submitScan ⟨some "https://s/exec", some "store1", some 5⟩ "dev" "t0"
        true "12345678901234" [] = (ScanOutcome.storageFault, []) :=
  (submitScan_storage_fault ⟨some "https://s/exec", some "store1", some 5⟩
    "dev" "t0" "12345678901234" [] (by decide) (by decide)).1

/-- C6: when any required configuration value is missing, the handler
returns the configuration-missing rejection and the queue is untouched,
for every input and every append-fault setting. -/
theorem submitScan_config_missing
    (settings : Settings) (dev ts raw : String) (af : Bool) (queue : List Entry)
    (hconf : configOk settings = false) :
    submitScan settings dev ts af raw queue =
      (ScanOutcome.configurationMissing, queue) := by
  unfold submitScan
  simp [hconf]

/-- C6 witness: with no settings saved, even a valid 14-digit scan is
rejected as configuration-missing and nothing is queued. -/
theorem submitScan_config_missing_witness :
    submitScan ⟨none, none, none⟩ "dev" "t0" false "12345678901234" [] =
      (ScanOutcome.configurationMissing, []) :=
  submitScan_config_missing ⟨none, none, none⟩ "dev" "t0" "12345678901234"
    false [] (by decide)

/-- C1: on a non-empty queue, whenever the primary submission is not an
application-level success — network error, unparseable body, HTTP not ok,
or body status ≠ 200 — `syncData` leaves the whole persistent state (queue
contents, order, and last-sync marker) unchanged and returns the failure
outcome of the corresponding branch. -/
theorem syncData_failure_preserves_queue
    (settings : Settings) (dev : String) (now : Nat) (env : SyncEnv)
    (st : SyncState) (hne : st.queue ≠ [])
    (hfail : env.fetchResult.isAppSuccess = false) :
    (syncData settings dev now env st).state = st ∧
    (match env.fetchResult with
     | .networkError d =>
        (syncData settings dev now env st).outcome = SyncOutcome.syncError d
     | .badBody _ d =>
        (syncData settings dev now env st).outcome = SyncOutcome.syncError d
     | .response _ _ m =>
        (syncData settings dev now env st).outcome =
          SyncOutcome.remoteRejected (jsOrStr m "不明なエラー")) := by
  have hq : (st.queue.length == 0) = false := by
    simp [List.length_eq_zero]
    exact hne
  rcases henv : env.fetchResult with d | ⟨ok, d⟩ | ⟨ok, status, m⟩
  · unfold syncData
    simp_all [FetchResult.isAppSuccess]
  · unfold syncData
    simp_all [FetchResult.isAppSuccess]
  · unfold syncData
    simp_all [FetchResult.isAppSuccess]
    have hcond : ¬(ok = true ∧ status = some 200) := fun h => hfail h.1 h.2
    simp [hcond]

/-- C1 witness: a one-record queue facing an HTTP 500 / body-status-400
response keeps its record and yields the rejected outcome. -/
theorem syncData_failure_preserves_queue_witness :
    (syncData ⟨some "https://s/exec", some "store1", some 5⟩ "dev" 99
      ⟨.response false (some 400) (some "no"), none, false⟩
      ⟨[⟨"12345678901234", "t0", "dev"⟩], none⟩).state =
      ⟨[⟨"12345678901234", "t0", "dev"⟩], none⟩ :=
  (syncData_failure_preserves_queue ⟨some "https://s/exec", some "store1", some 5⟩
    "dev" 99 ⟨.response false (some 400) (some "no"), none, false⟩
    ⟨[⟨"12345678901234", "t0", "dev"⟩], none⟩ (by decide) (by decide)).1

/-- C2: on a non-empty queue, a transport-level success with body status 200
and no storage fault on the clear makes `syncData` clear the whole queue,
set the last-sync marker to the current time, and return the success
outcome carrying the remote message. -/
theorem syncData_success_clears_queue
    (settings : Settings) (dev : String) (now : Nat) (env : SyncEnv)
    (st : SyncState) (msg : Option String) (hne : st.queue ≠ [])
    (hresp : env.fetchResult = .response true (some 200) msg)
    (hclear : env.clearFail = none) :
    (syncData settings dev now env st).outcome = SyncOutcome.success msg ∧
    (syncData settings dev now env st).state.queue = [] ∧
    (syncData settings dev now env st).state.lastSyncTime = some now := by
  unfold syncData
  simp_all

/-- C2 witness: a two-record queue facing `status: 200, message: "ok"` is
cleared, the marker is set, and the outcome is success "ok". -/
theorem syncData_success_clears_queue_witness :
    (syncData ⟨some "https://s/exec", some "store1", some 5⟩ "dev" 1234
      ⟨.response true (some 200) (some "ok"), none, false⟩
      ⟨[⟨"12345678901234", "t0", "dev"⟩, ⟨"98765432109876", "t1", "dev"⟩],
        none⟩).outcome = SyncOutcome.success (some "ok") ∧
    (syncData ⟨some "https://s/exec", some "store1", some 5⟩ "dev" 1234
      ⟨.response true (some 200) (some "ok"), none, false⟩
      ⟨[⟨"12345678901234", "t0", "dev"⟩, ⟨"98765432109876", "t1", "dev"⟩],
        none⟩).state = ⟨[], some 1234⟩ := by
  have h := syncData_success_clears_queue
    ⟨some "https://s/exec", some "store1", some 5⟩ "dev" 1234
    ⟨.response true (some 200) (some "ok"), none, false⟩
    ⟨[⟨"12345678901234", "t0", "dev"⟩, ⟨"98765432109876", "t1", "dev"⟩], none⟩
    (some "ok") (by decide) rfl rfl
  exact ⟨h.1, by
    have h2 := h.2.1
    have h3 := h.2.2
    cases hs : (syncData ⟨some "https://s/exec", some "store1", some 5⟩ "dev" 1234
      ⟨.response true (some 200) (some "ok"), none, false⟩
      ⟨[⟨"12345678901234", "t0", "dev"⟩, ⟨"98765432109876", "t1", "dev"⟩],
        none⟩).state with
    | mk q l => simp_all⟩

/-- C4: on an empty queue `syncData` returns the nothing-to-sync outcome,
issues no network request, and leaves the queue and last-sync marker
exactly as they were, whatever the environment would have answered. -/
theorem syncData_empty_queue
    (settings : Settings) (dev : String) (now : Nat) (env : SyncEnv)
    (st : SyncState) (hempty : st.queue = []) :
    syncData settings dev now env st =
      { outcome := SyncOutcome.nothingToSync, state := st,
        requests := [], logs := [] } := by
  unfold syncData
  simp [hempty]

/-- C4 witness: an empty queue with a would-be-successful remote produces
nothing-to-sync, no requests, and an unchanged state. -/
theorem syncData_empty_queue_witness :
    syncData ⟨some "https://s/exec", some "store1", some 5⟩ "dev" 7
      ⟨.response true (some 200) (some "ok"), none, false⟩ ⟨[], some 3⟩ =
      { outcome := SyncOutcome.nothingToSync, state := ⟨[], some 3⟩,
        requests := [], logs := [] } :=
  syncData_empty_queue ⟨some "https://s/exec", some "store1", some 5⟩ "dev" 7
    ⟨.response true (some 200) (some "ok"), none, false⟩ ⟨[], some 3⟩ rfl

/-- C8: after a confirmed success of the primary submission (and a clean
clear), `syncData` issues exactly the batch request followed by the
`updateLastSyncTime` notification tagged with the device identity; whether
that secondary notification fails changes nothing but the log — outcome,
persistent state, and the requests issued are identical, and the failing
run records the failure in the log. -/
theorem syncData_secondary_fire_and_forget
    (settings : Settings) (dev : String) (now : Nat) (st : SyncState)
    (msg : Option String) (fr : FetchResult) (b : Bool)
    (hne : st.queue ≠ [])
    (hresp : fr = .response true (some 200) msg) :
    (syncData settings dev now ⟨fr, none, b⟩ st).outcome =
      SyncOutcome.success msg ∧
    (syncData settings dev now ⟨fr, none, b⟩ st).requests =
      [Request.batch
        { storeId := settings.storeId, pointValue := settings.pointValue,
          data := st.queue.map (fun e => (e.memberId, e.timestamp)),
          deviceId := dev },
       Request.updateLastSyncTime dev] ∧
    (syncData settings dev now ⟨fr, none, b⟩ st).outcome =
      (syncData settings dev now ⟨fr, none, false⟩ st).outcome ∧
    (syncData settings dev now ⟨fr, none, b⟩ st).state =
      (syncData settings dev now ⟨fr, none, false⟩ st).state ∧
    (syncData settings dev now ⟨fr, none, b⟩ st).requests =
      (syncData settings dev now ⟨fr, none, false⟩ st).requests ∧
    (b = true →
      (syncData settings dev now ⟨fr, none, b⟩ st).logs =
        ["Failed to update last sync time on Apps Script"]) := by
  subst hresp
  unfold syncData
  simp_all

/-- C8 witness: with a one-record queue and a failing secondary
notification, the run still succeeds and both requests are issued. -/
theorem syncData_secondary_fire_and_forget_witness :
    (syncData ⟨some "https://s/exec", some "store1", some 5⟩ "dev" 55
      ⟨.response true (some 200) (some "ok"), none, true⟩
      ⟨[⟨"12345678901234", "t0", "dev"⟩], none⟩).outcome =
      SyncOutcome.success (some "ok") ∧
    (syncData ⟨some "https://s/exec", some "store1", some 5⟩ "dev" 55
      ⟨.response true (some 200) (some "ok"), none, true⟩
      ⟨[⟨"12345678901234", "t0", "dev"⟩], none⟩).requests =
      [Request.batch ⟨some "store1", some 5, [("12345678901234", "t0")], "dev"⟩,
       Request.updateLastSyncTime "dev"] := by
  have h := syncData_secondary_fire_and_forget
    ⟨some "https://s/exec", some "store1", some 5⟩ "dev" 55
    ⟨[⟨"12345678901234", "t0", "dev"⟩], none⟩ (some "ok")
    (.response true (some 200) (some "ok")) true (by decide) rfl
  exact ⟨h.1, h.2.1⟩

/-- C10: when the remote accepts the batch but the local queue clear
faults, `syncData` ends in the catch branch's sync-error outcome rather
than success, the persistent state (queue and last-sync marker) is
unchanged, and no secondary notification is sent — so the same batch
would be re-submitted on the next attempt. -/
theorem syncData_clear_fault
    (settings : Settings) (dev : String) (now : Nat) (st : SyncState)
    (msg : Option String) (detail : String) (b : Bool)
    (hne : st.queue ≠ []) :
    (syncData settings dev now
        ⟨.response true (some 200) msg, some detail, b⟩ st).outcome =
      SyncOutcome.syncError detail ∧
    (syncData settings dev now
        ⟨.response true (some 200) msg, some detail, b⟩ st).state = st ∧
    (syncData settings dev now
        ⟨.response true (some 200) msg, some detail, b⟩ st).requests =
      [Request.batch
        { storeId := settings.storeId, pointValue := settings.pointValue,
          data := st.queue.map (fun e => (e.memberId, e.timestamp)),
          deviceId := dev }] := by
  unfold syncData
  simp_all

/-- C10 witness: a one-record queue whose clear faults keeps its record,
keeps the marker unset, and reports the storage error's detail. -/
theorem syncData_clear_fault_witness :
    (syncData ⟨some "https://s/exec", some "store1", some 5⟩ "dev" 55
      ⟨.response true (some 200) (some "ok"), some "QuotaExceededError", false⟩
      ⟨[⟨"12345678901234", "t0", "dev"⟩], none⟩).outcome =
      SyncOutcome.syncError "QuotaExceededError" ∧
    (syncData ⟨some "https://s/exec", some "store1", some 5⟩ "dev" 55
      ⟨.response true (some 200) (some "ok"), some "QuotaExceededError", false⟩
      ⟨[⟨"12345678901234", "t0", "dev"⟩], none⟩).state =
      ⟨[⟨"12345678901234", "t0", "dev"⟩], none⟩ := by
  have h := syncData_clear_fault
    ⟨some "https://s/exec", some "store1", some 5⟩ "dev" 55
    ⟨[⟨"12345678901234", "t0", "dev"⟩], none⟩ (some "ok")
    "QuotaExceededError" false (by decide)
  exact ⟨h.1, h.2.1⟩

/-- C7: device identity is deterministic once created — the first-ever
call persists the fresh identifier, every later call (with any fresh value
available) returns the persisted value unchanged; after a reset the new
identifier is persisted and later calls return it, and it differs from
the old one whenever the fresh UUID does. -/
theorem getOrCreate_stable_and_reset
    (u u2 u3 uR : String) (hu : u ≠ "") (huR : uR ≠ "") (hne : uR ≠ u) :
    getOrCreate none u = (u, some u) ∧
    getOrCreate (getOrCreate none u).2 u2 = (u, some u) ∧
    (resetDevice uR).2.1 = some uR ∧
    getOrCreate (resetDevice uR).2.1 u3 = (uR, some uR) ∧
    (getOrCreate (resetDevice uR).2.1 u3).1 ≠ (getOrCreate none u).1 := by
  simp [getOrCreate, resetDevice, jsOrStr, hu, huR, hne]

/-- C7 witness: concrete UUID strings — two calls agree, reset yields a
different persisted identifier. -/
theorem getOrCreate_stable_and_reset_witness :
    getOrCreate none "4b12…aa" = ("4b12…aa", some "4b12…aa") ∧
    getOrCreate (getOrCreate none "4b12…aa").2 "ffff…01" =
      ("4b12…aa", some "4b12…aa") ∧
    (resetDevice "9c34…bb").2.1 = some "9c34…bb" ∧
    getOrCreate (resetDevice "9c34…bb").2.1 "ffff…02" =
      ("9c34…bb", some "9c34…bb") ∧
    (getOrCreate (resetDevice "9c34…bb").2.1 "ffff…02").1 ≠
      (getOrCreate none "4b12…aa").1 :=
  getOrCreate_stable_and_reset "4b12…aa" "ffff…01" "ffff…02" "9c34…bb"
    (by decide) (by decide) (by decide)

/-- C9: the service worker's fetch handler never mutates the cache; it
serves the cached copy whenever one is present and otherwise returns the
network's answer. -/
theorem handleFetch_cache_first
    (cache : List (String × String)) (network : String → Option String)
    (req : String) :
    (handleFetch cache network req).2 = cache ∧
    (∀ resp, cachesMatch cache req = some resp →
      (handleFetch cache network req).1 = some resp) ∧
    (cachesMatch cache req = none →
      (handleFetch cache network req).1 = network req) := by
  unfold handleFetch
  rcases h : cachesMatch cache req with _ | resp <;> simp [h]

/-- C9 witness: at a concrete cache, a cached URL is served from cache and
an uncached one from the network, with the cache identical afterwards. -/
theorem handleFetch_cache_first_witness :
    (handleFetch [("app.js", "cached-app")] (fun _ => some "net") "app.js").1 =
      some "cached-app" ∧
    (handleFetch [("app.js", "cached-app")] (fun _ => some "net") "other.js").1 =
      some "net" ∧
    (handleFetch [("app.js", "cached-app")] (fun _ => some "net") "other.js").2 =
      [("app.js", "cached-app")] := by
  refine ⟨?_, ?_, ?_⟩
  · exact (handleFetch_cache_first [("app.js", "cached-app")]
      (fun _ => some "net") "app.js").2.1 "cached-app" rfl
  · exact (handleFetch_cache_first [("app.js", "cached-app")]
      (fun _ => some "net") "other.js").2.2 rfl
  · exact (handleFetch_cache_first [("app.js", "cached-app")]
      (fun _ => some "net") "other.js").1

end PointCard
